import Mathlib

/-!
Verification of the Connection Lifecycle Manager in
`src/client_unreal/Source/client_unreal/private/StDbConnectSubsystem.cpp`
(`UStDbConnectSubsystem`), against its natural-language specification.

The subsystem is single-threaded and frame-driven, so we embed it as
explicit state passing: every operation takes a `MgrState` and returns
the updated state together with the list of side effects it issued to
the SDK / engine (build requests, frame ticks, broadcasts, ...).
SDK handles are given integer ids so we can talk about which handles
were built and which were ever told to disconnect.
-/

namespace StDb

/-- Opaque SDK connection handle (`UDbConnection*`). `active` is what
`IsActive()` reports; `hasDb` models whether the `Db` pointer is non-null. -/
structure DbConn where
  id : Nat
  active : Bool
  hasDb : Bool
  deriving DecidableEq, Repr

/-- Row of the Players table (`FPlayerType`): the fields the subsystem reads. -/
structure FPlayerType where
  identity : Nat
  playerId : Nat
  displayName : String
  deriving DecidableEq, Repr

/-- Row of the PlayerCharacters table (`FPlayerCharacterType`). -/
structure FPlayerCharacterType where
  characterId : Nat
  playerId : Nat
  needsSpawn : Bool
  deriving DecidableEq, Repr

/-- Snapshot of the SDK row stores as seen by a subscription-applied context. -/
structure DbSnapshot where
  players : List FPlayerType
  characters : List FPlayerCharacterType
  deriving DecidableEq, Repr

/-- Observable side effects the subsystem issues to the SDK / engine. -/
inductive Effect where
  | credInit (path : String)
  | buildConnect (id : Nat) (token : Option String)
  | frameTick (id : Nat)
  | disconnectReq (id : Nat)
  | registerRowCallbacks (id : Nat)
  | subscribeAll (id : Nat) (onAppliedBound : Bool)
  | broadcastName (name : String)
  | saveToken (t : String)
  | addTicker
  | removeTicker
  | queryCharacters (playerId : Nat)
  deriving DecidableEq, Repr

/-- State of `UStDbConnectSubsystem` plus bookkeeping of live SDK handles.
`savedToken` is the content of the credentials file (`""` = absent);
`liveHandles` are ids of connections built and never told to disconnect;
`nextId` feeds fresh handle ids to `Build()`. -/
structure MgrState where
  conn : Option DbConn
  localIdentity : Nat
  localPlayerDisplayName : String
  tickerValid : Bool
  savedToken : String
  liveHandles : List Nat
  nextId : Nat
  bAutoStart : Bool
  deriving DecidableEq, Repr

/-- State after the constructor: `Conn(nullptr)`, everything else default. -/
def initState : MgrState :=
  { conn := none
  , localIdentity := 0
  , localPlayerDisplayName := ""
  , tickerValid := false
  , savedToken := ""
  , liveHandles := []
  , nextId := 0
  , bAutoStart := false }

/-- Embeds `IsConnected`: `Conn != nullptr && Conn->IsActive()`. -/
def IsConnected (s : MgrState) : Bool :=
  match s.conn with
  | some c => c.active
  | none => false

/-- Embeds `UCredentials::LoadToken` over the modelled credentials file. -/
def LoadToken (s : MgrState) : String := s.savedToken

/-- Embeds `Disconnect`: if a handle exists, request disconnect on it and
clear the stored reference; otherwise do nothing. -/
def Disconnect (s : MgrState) : MgrState × List Effect :=
  match s.conn with
  | some c =>
      ({ s with conn := none, liveHandles := s.liveHandles.erase c.id }
      , [Effect.disconnectReq c.id])
  | none => (s, [])

/-- Embeds `BuildAndStartConnection`: load the cached token, build a fresh
connection (anonymous when the token is empty) and store the handle.
The freshly built handle is not yet active. -/
def BuildAndStartConnection (s : MgrState) : MgrState × List Effect :=
  let token := LoadToken s
  let newConn : DbConn := { id := s.nextId, active := false, hasDb := true }
  ({ s with conn := some newConn
          , nextId := s.nextId + 1
          , liveHandles := s.nextId :: s.liveHandles }
  , [Effect.buildConnect s.nextId (if token.isEmpty then none else some token)])

/-- Embeds `StartConnection`: return immediately when a handle exists and is
active, otherwise build and start a new connection. -/
def StartConnection (s : MgrState) : MgrState × List Effect :=
  match s.conn with
  | some c => if c.active then (s, []) else BuildAndStartConnection s
  | none => BuildAndStartConnection s

/-- Embeds the SDK completing the connect: the stored handle (if any)
starts reporting active. This is the step between `Build()` returning and
the on-connect callback firing. -/
def sdkActivate (s : MgrState) : MgrState :=
  match s.conn with
  | some c => { s with conn := some { c with active := true } }
  | none => s

/-- Embeds `HandleConnect`: save the token, store the identity, register the
row-change callbacks when `Conn && Conn->Db`, and issue the
subscribe-to-all-tables request (with the on-applied delegate bound)
when `Conn` is non-null. -/
def HandleConnect (s : MgrState) (identity : Nat) (token : String) :
    MgrState × List Effect :=
  let s1 := { s with savedToken := token, localIdentity := identity }
  let regEffects : List Effect :=
    match s1.conn with
    | some c => if c.hasDb then [Effect.registerRowCallbacks c.id] else []
    | none => []
  let subEffects : List Effect :=
    match s1.conn with
    | some c => [Effect.subscribeAll c.id true]
    | none => []
  (s1, Effect.saveToken token :: (regEffects ++ subEffects))

/-- Embeds `Tick`: `if (IsConnected() && Conn) Conn->FrameTick();`. -/
def Tick (s : MgrState) (_deltaSeconds : Int) : MgrState × List Effect :=
  if IsConnected s then
    match s.conn with
    | some c => (s, [Effect.frameTick c.id])
    | none => (s, [])
  else (s, [])

/-- Embeds `RegisterTicker`: register the core ticker once, when the stored
handle is not yet valid. -/
def RegisterTicker (s : MgrState) : MgrState × List Effect :=
  if s.tickerValid then (s, [])
  else ({ s with tickerValid := true }, [Effect.addTicker])

/-- Embeds `UnregisterTicker`: remove the ticker and reset the handle,
only when the handle is valid. -/
def UnregisterTicker (s : MgrState) : MgrState × List Effect :=
  if s.tickerValid then
    ({ s with tickerValid := false }, [Effect.removeTicker])
  else (s, [])

/-- Token file path configured on the subsystem. -/
def TokenFilePath : String := ".spacetime_mmorpg"

/-- Embeds `Initialize`: init the credentials helper, auto-start the
connection when configured, then register the ticker. -/
def InitializeSubsystem (s : MgrState) : MgrState × List Effect :=
  let (s1, e1) := if s.bAutoStart then StartConnection s else (s, [])
  let (s2, e2) := RegisterTicker s1
  (s2, Effect.credInit TokenFilePath :: (e1 ++ e2))

/-- Embeds `Deinitialize`: unregister the ticker, then disconnect. -/
def DeinitializeSubsystem (s : MgrState) : MgrState × List Effect :=
  let (s1, e1) := UnregisterTicker s
  let (s2, e2) := Disconnect s1
  (s2, e1 ++ e2)

/-- Default-constructed `FPlayerType`, what the indexed `Find` yields on a
miss (its `PlayerId` is 0). -/
def defaultPlayer : FPlayerType :=
  { identity := 0, playerId := 0, displayName := "" }

/-- Embeds the `Players->Identity->Find` indexed lookup: first row whose
identity matches, default-constructed row otherwise. -/
def findByIdentity : List FPlayerType → Nat → FPlayerType
  | [], _ => defaultPlayer
  | p :: ps, i => if p.identity = i then p else findByIdentity ps i

/-- Embeds `OnPlayerInsert`: when the row is the local player and its
display name is non-empty and differs from the cache, update the cache and
broadcast; otherwise log only. -/
def OnPlayerInsert (s : MgrState) (newRow : FPlayerType) :
    MgrState × List Effect :=
  if newRow.identity = s.localIdentity then
    if newRow.displayName ≠ "" ∧ newRow.displayName ≠ s.localPlayerDisplayName then
      ({ s with localPlayerDisplayName := newRow.displayName }
      , [Effect.broadcastName newRow.displayName])
    else (s, [])
  else (s, [])

/-- Embeds `OnPlayerUpdate`: same guard and cache update as the insert
handler, driven by the new row. -/
def OnPlayerUpdate (s : MgrState) (_oldRow newRow : FPlayerType) :
    MgrState × List Effect :=
  if newRow.identity = s.localIdentity then
    if newRow.displayName ≠ "" ∧ newRow.displayName ≠ s.localPlayerDisplayName then
      ({ s with localPlayerDisplayName := newRow.displayName }
      , [Effect.broadcastName newRow.displayName])
    else (s, [])
  else (s, [])

/-- Embeds `HandleSubscriptionApplied`: guard on `Conn`/`Conn->Db`, look up
the local player by identity, treat `PlayerId == 0` as absent, cache the
display name when non-empty and new, then filter the character rows for
this player (the filter call is marked by the `queryCharacters` effect;
the needs-spawn pass over the result only logs). -/
def HandleSubscriptionApplied (s : MgrState) (db : DbSnapshot) :
    MgrState × List Effect :=
  match s.conn with
  | none => (s, [])
  | some c =>
    if c.hasDb then
      let player := findByIdentity db.players s.localIdentity
      if player.playerId = 0 then (s, [])
      else
        let (s1, e1) :=
          if player.displayName ≠ "" ∧ player.displayName ≠ s.localPlayerDisplayName then
            ({ s with localPlayerDisplayName := player.displayName }
            , [Effect.broadcastName player.displayName])
          else (s, [])
        (s1, e1 ++ [Effect.queryCharacters player.playerId])
    else (s, [])

/-- Events that can drive the subsystem: the lifecycle entry points, the
SDK finishing a connect, and the SDK-dispatched callbacks. -/
inductive Ev where
  | init
  | deinit
  | start
  | disconnect
  | tick (d : Int)
  | activate
  | connected (identity : Nat) (token : String)
  | playerInsert (r : FPlayerType)
  | playerUpdate (o : FPlayerType) (r : FPlayerType)
  | subApplied (db : DbSnapshot)
  deriving DecidableEq, Repr

/-- One event stepping the subsystem state, yielding the effects issued. -/
def step (s : MgrState) : Ev → MgrState × List Effect
  | Ev.init => InitializeSubsystem s
  | Ev.deinit => DeinitializeSubsystem s
  | Ev.start => StartConnection s
  | Ev.disconnect => Disconnect s
  | Ev.tick d => Tick s d
  | Ev.activate => (sdkActivate s, [])
  | Ev.connected i t => HandleConnect s i t
  | Ev.playerInsert r => OnPlayerInsert s r
  | Ev.playerUpdate o r => OnPlayerUpdate s o r
  | Ev.subApplied db => HandleSubscriptionApplied s db

/-- Run a sequence of events, accumulating the issued effects in order. -/
def run (s : MgrState) : List Ev → MgrState × List Effect
  | [] => (s, [])
  | e :: rest =>
      let (s1, ef1) := step s e
      let (s2, ef2) := run s1 rest
      (s2, ef1 ++ ef2)

/-- Recognizes a build/connect request among the issued effects. -/
def isBuild : Effect → Bool
  | Effect.buildConnect _ _ => true
  | _ => false

/-- Number of build/connect requests in an effect list. -/
def buildCount (es : List Effect) : Nat := (es.filter isBuild).length

/-- Recognizes a subscribe-to-all-tables request. -/
def isSubscribe : Effect → Bool
  | Effect.subscribeAll _ _ => true
  | _ => false

/-- Recognizes a ticker removal. -/
def isRemoveTicker : Effect → Bool
  | Effect.removeTicker => true
  | _ => false

/-- Number of ticker removals in an effect list. -/
def removeTickerCount (es : List Effect) : Nat := (es.filter isRemoveTicker).length

/-- Recognizes a display-name change broadcast. -/
def isBroadcast : Effect → Bool
  | Effect.broadcastName _ => true
  | _ => false

/-- Recognizes a per-frame pump call on some handle. -/
def isFrameTick : Effect → Bool
  | Effect.frameTick _ => true
  | _ => false

/-- The display names an event row could have delivered for the identity
that is local in state `s`: used to state that the cache only ever holds
names received for the local identity. -/
def cacheFromLocalRow (s : MgrState) (ev : Ev) (n : String) : Prop :=
  match ev with
  | Ev.playerInsert r => r.identity = s.localIdentity ∧ r.displayName = n
  | Ev.playerUpdate _ r => r.identity = s.localIdentity ∧ r.displayName = n
  | Ev.subApplied db => ∃ r, r ∈ db.players ∧ r.identity = s.localIdentity ∧ r.displayName = n
  | _ => False

/-- Sample handle used by concrete witnesses: built, active, db available. -/
def sampleConn : DbConn := { id := 0, active := true, hasDb := true }

/-- Sample connected state used by concrete witnesses. -/
def connectedState : MgrState :=
  { initState with conn := some sampleConn, liveHandles := [0], nextId := 1 }

/-- Sample handle that is built but not yet active (Connecting). -/
def connectingConn : DbConn := { id := 0, active := false, hasDb := true }

/-- Sample Connecting state used by concrete witnesses. -/
def connectingState : MgrState :=
  { initState with conn := some connectingConn, liveHandles := [0], nextId := 1 }

/-! ## Claims -/

/-- Claim C4: in every state where `IsConnected()` is false (handle null, or
non-null but not active), `Tick(deltaSeconds)` issues no SDK pump call on any
handle and returns with the state unchanged, for every delta value. -/
theorem C4_tick_disconnected_no_pump (s : MgrState) (d : Int)
    (h : IsConnected s = false) : Tick s d = (s, []) := by
  simp [Tick, h]

/-- Witness for C4 at the initial state and at a Connecting state. -/
theorem C4_witness :
    IsConnected initState = false ∧ Tick initState 7 = (initState, []) ∧
    IsConnected connectingState = false ∧
    Tick connectingState 3 = (connectingState, []) :=
  ⟨by decide, C4_tick_disconnected_no_pump initState 7 (by decide),
   by decide, C4_tick_disconnected_no_pump connectingState 3 (by decide)⟩

/-- Claim C5: `Disconnect()` with a null handle leaves the state unchanged and
issues nothing; with a stored handle (active or not) it requests disconnect on
that handle and unconditionally clears the stored reference. -/
theorem C5_disconnect_contract (s : MgrState) :
    (s.conn = none → Disconnect s = (s, [])) ∧
    (∀ c, s.conn = some c →
      Disconnect s =
        ({ s with conn := none, liveHandles := s.liveHandles.erase c.id }
        , [Effect.disconnectReq c.id])) := by
  constructor
  · intro h; simp [Disconnect, h]
  · intro c h; simp [Disconnect, h]

/-- Witness for C5: null-handle case at the initial state and stored-handle
case at a Connecting (not yet active) state. -/
theorem C5_witness :
    Disconnect initState = (initState, []) ∧
    Disconnect connectingState =
      ({ connectingState with conn := none, liveHandles := [] }
      , [Effect.disconnectReq 0]) :=
  ⟨(C5_disconnect_contract initState).1 rfl
  , by
      have h := (C5_disconnect_contract connectingState).2 connectingConn rfl
      simpa [connectingState, connectingConn, initState] using h⟩

/-- Claim C8: a row insert or update whose identity differs from the stored
local identity leaves the cached display name (indeed the whole state)
unchanged and broadcasts nothing, whatever the row's display name. -/
theorem C8_foreign_row_no_effect (s : MgrState) (o r : FPlayerType)
    (h : r.identity ≠ s.localIdentity) :
    OnPlayerInsert s r = (s, []) ∧ OnPlayerUpdate s o r = (s, []) := by
  constructor <;> simp [OnPlayerInsert, OnPlayerUpdate, h]

/-- Witness for C8 at a concrete foreign row. -/
theorem C8_witness :
    OnPlayerInsert initState
      { identity := 5, playerId := 9, displayName := "Bob" } = (initState, []) ∧
    OnPlayerUpdate initState defaultPlayer
      { identity := 5, playerId := 9, displayName := "Bob" } = (initState, []) :=
  C8_foreign_row_no_effect initState defaultPlayer
    { identity := 5, playerId := 9, displayName := "Bob" } (by decide)

/-- Claim C10: when the identity lookup of the subscription-applied handler
yields a player whose `PlayerId` is 0, the handler returns early: the state
(cached display name included) is unchanged, nothing is broadcast, and the
character rows are never filtered. -/
theorem C10_player_id_zero_treated_absent (s : MgrState) (c : DbConn)
    (db : DbSnapshot) (hc : s.conn = some c) (hdb : c.hasDb = true)
    (h : (findByIdentity db.players s.localIdentity).playerId = 0) :
    HandleSubscriptionApplied s db = (s, []) := by
  simp [HandleSubscriptionApplied, hc, hdb, h]

/-- Witness for C10: a snapshot whose lookup misses (yielding the
default-constructed row with `PlayerId` 0). -/
theorem C10_witness :
    HandleSubscriptionApplied connectedState
      { players := [{ identity := 4, playerId := 2, displayName := "Eve" }]
      , characters := [{ characterId := 1, playerId := 2, needsSpawn := true }] } =
      (connectedState, []) :=
  C10_player_id_zero_treated_absent connectedState sampleConn
    { players := [{ identity := 4, playerId := 2, displayName := "Eve" }]
    , characters := [{ characterId := 1, playerId := 2, needsSpawn := true }] }
    rfl rfl (by decide)

/-- Claim C1: while the handle is non-null and active, `StartConnection()`
returns immediately without invoking build/connect; consequently the
sequence start, SDK-activate, start, start — two consecutive calls made
while connected — issues exactly one build/connect request in total. -/
theorem C1_start_connection_idempotent :
    (∀ s, IsConnected s = true → StartConnection s = (s, [])) ∧
    (∀ s, s.conn = none →
      buildCount ((run s [Ev.start, Ev.activate, Ev.start, Ev.start]).2) = 1) := by
  constructor
  · intro s h
    match hc : s.conn with
    | none => simp [IsConnected, hc] at h
    | some c =>
      have ha : c.active = true := by simpa [IsConnected, hc] using h
      simp [StartConnection, hc, ha]
  · intro s h
    simp [run, step, StartConnection, h, BuildAndStartConnection, sdkActivate,
      buildCount, isBuild, List.filter, LoadToken]

/-- Witness for C1: a second call in the connected state is a no-op, and the
full connect-then-restart trace from the initial state builds exactly once. -/
theorem C1_witness :
    StartConnection connectedState = (connectedState, []) ∧
    buildCount ((run initState [Ev.start, Ev.activate, Ev.start, Ev.start]).2) = 1 :=
  ⟨C1_start_connection_idempotent.1 connectedState (by decide)
  , C1_start_connection_idempotent.2 initState rfl⟩

/-- Claim C3 (as proved): an insert for the local identity with a non-empty
display name differing from the cache updates the cache and broadcasts once;
one equal to the cache fires nothing; hence two identical inserts broadcast
the value exactly once. -/
theorem C3_display_name_once_per_distinct :
    (∀ s r, r.identity = s.localIdentity → r.displayName ≠ "" →
      r.displayName ≠ s.localPlayerDisplayName →
      OnPlayerInsert s r =
        ({ s with localPlayerDisplayName := r.displayName }
        , [Effect.broadcastName r.displayName])) ∧
    (∀ s r, r.identity = s.localIdentity →
      r.displayName = s.localPlayerDisplayName →
      OnPlayerInsert s r = (s, [])) ∧
    (∀ s r, r.identity = s.localIdentity → r.displayName ≠ "" →
      r.displayName ≠ s.localPlayerDisplayName →
      ((run s [Ev.playerInsert r, Ev.playerInsert r]).2).filter isBroadcast =
        [Effect.broadcastName r.displayName]) := by
  refine ⟨?_, ?_, ?_⟩
  · intro s r hid hne hdiff
    simp [OnPlayerInsert, hid, hne, hdiff]
  · intro s r hid heq
    simp [OnPlayerInsert, hid, heq]
  · intro s r hid hne hdiff
    simp [run, step, OnPlayerInsert, hid, hne, hdiff, isBroadcast, List.filter]

/-- Witness for C3: a fresh name broadcast once, the identical repeat silent. -/
theorem C3_witness :
    OnPlayerInsert initState { identity := 0, playerId := 1, displayName := "Ada" } =
      ({ initState with localPlayerDisplayName := "Ada" }
      , [Effect.broadcastName "Ada"]) ∧
    ((run initState [Ev.playerInsert { identity := 0, playerId := 1, displayName := "Ada" }
                    , Ev.playerInsert { identity := 0, playerId := 1, displayName := "Ada" }]).2).filter
        isBroadcast = [Effect.broadcastName "Ada"] :=
  ⟨C3_display_name_once_per_distinct.1 initState
      { identity := 0, playerId := 1, displayName := "Ada" } rfl (by decide) (by decide)
  , C3_display_name_once_per_distinct.2.2 initState
      { identity := 0, playerId := 1, displayName := "Ada" } rfl (by decide) (by decide)⟩

/-- Claim C7: `Initialize` registers the ticker even when no connection is
started, and from any state with a valid ticker handle, `Deinitialize`
removes the ticker exactly once, resets the handle, and a repeated teardown
removes it zero further times. -/
theorem C7_ticker_unregistered_exactly_once :
    (((InitializeSubsystem initState).1).tickerValid = true ∧
      Effect.addTicker ∈ (InitializeSubsystem initState).2) ∧
    (∀ s, s.tickerValid = true →
      removeTickerCount ((DeinitializeSubsystem s).2) = 1 ∧
      ((DeinitializeSubsystem s).1).tickerValid = false ∧
      removeTickerCount
        ((DeinitializeSubsystem (DeinitializeSubsystem s).1).2) = 0) := by
  constructor
  · constructor <;> decide
  · intro s h
    cases hc : s.conn <;>
      simp [DeinitializeSubsystem, UnregisterTicker, Disconnect, h, hc,
        removeTickerCount, isRemoveTicker, List.filter]

/-- Witness for C7 at a concrete state with a registered ticker. -/
theorem C7_witness :
    removeTickerCount
      ((DeinitializeSubsystem { initState with tickerValid := true }).2) = 1 ∧
    ((DeinitializeSubsystem { initState with tickerValid := true }).1).tickerValid = false ∧
    removeTickerCount
      ((DeinitializeSubsystem
        (DeinitializeSubsystem { initState with tickerValid := true }).1).2) = 0 :=
  C7_ticker_unregistered_exactly_once.2 { initState with tickerValid := true } rfl

/-- Counterexample to claim C2: from the initial state, the reachable trace
Initialize, StartConnection, StartConnection leaves TWO live (built and
never disconnected) handles, because the idempotence guard only checks
`IsActive()` and the second call fires while the first handle is still
Connecting. So it is false that at most one connection handle exists. -/
theorem C2_counterexample :
    ¬ ((run initState [Ev.init, Ev.start, Ev.start]).1).liveHandles.length ≤ 1 := by
  decide

/-- Claim C2 as amended: at most one handle reference is stored and
`StartConnection` on an active handle builds nothing; but on a stored handle
that is not yet active (Connecting), `StartConnection` builds and stores a
fresh handle while the previous one stays live, never disconnected. -/
theorem C2_amended_handle_ownership :
    (∀ s c, s.conn = some c → c.active = true → StartConnection s = (s, [])) ∧
    (∀ s c, s.conn = some c → c.active = false → c.id ∈ s.liveHandles →
      ((StartConnection s).1).conn =
        some { id := s.nextId, active := false, hasDb := true } ∧
      c.id ∈ ((StartConnection s).1).liveHandles ∧
      ((StartConnection s).1).liveHandles.length = s.liveHandles.length + 1) := by
  constructor
  · intro s c hc ha
    simp [StartConnection, hc, ha]
  · intro s c hc ha hm
    simp [StartConnection, hc, ha, BuildAndStartConnection, hm]

/-- Witness for the amended C2 at a concrete Connecting state: the old
handle 0 survives undisconnected next to the freshly built handle 1. -/
theorem C2_witness :
    ((StartConnection connectingState).1).conn =
      some { id := 1, active := false, hasDb := true } ∧
    0 ∈ ((StartConnection connectingState).1).liveHandles ∧
    ((StartConnection connectingState).1).liveHandles.length =
      connectingState.liveHandles.length + 1 :=
  C2_amended_handle_ownership.2 connectingState connectingConn rfl rfl (by decide)

/-- Counterexample to claim C6: an on-connect callback that fires after the
stored handle was cleared (a queued callback after `Disconnect`) persists the
token — proof that token "tokT" and identity 5 were delivered and handled —
yet issues NO subscribe-to-all-tables request, refuting "a subscribe request
has been issued" for every delivered token and identity. -/
theorem C6_counterexample :
    ((HandleConnect initState 5 "tokT").1).savedToken = "tokT" ∧
    ((HandleConnect initState 5 "tokT").2).filter isSubscribe = [] := by
  constructor <;> decide

/-- Claim C6 as amended: the on-connect callback always persists the token
(a subsequent credential load returns it) and stores the identity; the
subscribe-to-all-tables request with the on-applied callback bound is issued
exactly when the stored handle is non-null at callback time. -/
theorem C6_amended_connect_callback (s : MgrState) (i : Nat) (t : String) :
    LoadToken ((HandleConnect s i t).1) = t ∧
    ((HandleConnect s i t).1).localIdentity = i ∧
    (∀ c, s.conn = some c →
      Effect.subscribeAll c.id true ∈ (HandleConnect s i t).2) ∧
    (s.conn = none → ((HandleConnect s i t).2).filter isSubscribe = []) := by
  refine ⟨?_, ?_, ?_, ?_⟩
  · simp [HandleConnect, LoadToken]
  · simp [HandleConnect]
  · intro c hc
    cases hdb : c.hasDb <;>
      simp [HandleConnect, hc, hdb]
  · intro hc
    simp [HandleConnect, hc, isSubscribe, List.filter]

/-- Witness for the amended C6 at the connected sample state. -/
theorem C6_witness :
    LoadToken ((HandleConnect connectedState 9 "tok2").1) = "tok2" ∧
    ((HandleConnect connectedState 9 "tok2").1).localIdentity = 9 ∧
    Effect.subscribeAll 0 true ∈ (HandleConnect connectedState 9 "tok2").2 :=
  ⟨(C6_amended_connect_callback connectedState 9 "tok2").1
  , (C6_amended_connect_callback connectedState 9 "tok2").2.1
  , (C6_amended_connect_callback connectedState 9 "tok2").2.2.1 sampleConn rfl⟩

/-- The indexed lookup yields the default row or a matching member. -/
theorem findByIdentity_default_or_mem (ps : List FPlayerType) (i : Nat) :
    findByIdentity ps i = defaultPlayer ∨
    (findByIdentity ps i ∈ ps ∧ (findByIdentity ps i).identity = i) := by
  induction ps with
  | nil => exact Or.inl rfl
  | cons p ps ih =>
    by_cases h : p.identity = i
    · refine Or.inr ⟨?_, ?_⟩ <;> simp [findByIdentity, h]
    · have hred : findByIdentity (p :: ps) i = findByIdentity ps i := by
        simp [findByIdentity, h]
      rw [hred]
      rcases ih with h1 | ⟨hm, hi⟩
      · exact Or.inl h1
      · exact Or.inr ⟨List.mem_cons_of_mem _ hm, hi⟩

/-- `StartConnection` never touches the cached display name. -/
theorem StartConnection_cache (s : MgrState) :
    ((StartConnection s).1).localPlayerDisplayName = s.localPlayerDisplayName := by
  cases hc : s.conn with
  | none => simp [StartConnection, hc, BuildAndStartConnection]
  | some c =>
      cases ha : c.active <;>
        simp [StartConnection, hc, ha, BuildAndStartConnection]

/-- `Disconnect` never touches the cached display name. -/
theorem Disconnect_cache (s : MgrState) :
    ((Disconnect s).1).localPlayerDisplayName = s.localPlayerDisplayName := by
  cases hc : s.conn <;> simp [Disconnect, hc]

/-- `RegisterTicker` never touches the cached display name. -/
theorem RegisterTicker_cache (s : MgrState) :
    ((RegisterTicker s).1).localPlayerDisplayName = s.localPlayerDisplayName := by
  by_cases h : s.tickerValid <;> simp [RegisterTicker, h]

/-- `UnregisterTicker` never touches the cached display name. -/
theorem UnregisterTicker_cache (s : MgrState) :
    ((UnregisterTicker s).1).localPlayerDisplayName = s.localPlayerDisplayName := by
  by_cases h : s.tickerValid <;> simp [UnregisterTicker, h]

/-- `Initialize` never touches the cached display name. -/
theorem InitializeSubsystem_cache (s : MgrState) :
    ((InitializeSubsystem s).1).localPlayerDisplayName = s.localPlayerDisplayName := by
  by_cases h : s.bAutoStart <;>
    simp [InitializeSubsystem, h, RegisterTicker_cache, StartConnection_cache]

/-- `Deinitialize` never touches the cached display name. -/
theorem DeinitializeSubsystem_cache (s : MgrState) :
    ((DeinitializeSubsystem s).1).localPlayerDisplayName = s.localPlayerDisplayName := by
  simp [DeinitializeSubsystem, Disconnect_cache, UnregisterTicker_cache]

/-- `Tick` never changes the state at all. -/
theorem Tick_state (s : MgrState) (d : Int) : (Tick s d).1 = s := by
  cases hc : s.conn with
  | none => simp [Tick, IsConnected, hc]
  | some c => cases ha : c.active <;> simp [Tick, IsConnected, hc, ha]

/-- The SDK activation step never touches the cached display name. -/
theorem sdkActivate_cache (s : MgrState) :
    (sdkActivate s).localPlayerDisplayName = s.localPlayerDisplayName := by
  cases hc : s.conn <;> simp [sdkActivate, hc]

/-- The on-connect callback never touches the cached display name. -/
theorem HandleConnect_cache (s : MgrState) (i : Nat) (t : String) :
    ((HandleConnect s i t).1).localPlayerDisplayName = s.localPlayerDisplayName := by
  simp [HandleConnect]

/-- Claim C9: the cache starts empty; every event either leaves the cached
display name unchanged or sets it to a non-empty name delivered for the
current local identity (so a reachable cache is the initial empty string or
a previously received non-empty local name, and no handler overwrites a
non-empty cache with an empty one); and an incoming empty display name for
the local identity leaves the state unchanged and fires no notification. -/
theorem C9_cache_invariant :
    initState.localPlayerDisplayName = "" ∧
    (∀ s ev, ((step s ev).1).localPlayerDisplayName = s.localPlayerDisplayName ∨
      (((step s ev).1).localPlayerDisplayName ≠ "" ∧
        cacheFromLocalRow s ev (((step s ev).1).localPlayerDisplayName))) ∧
    (∀ s o r, r.identity = s.localIdentity → r.displayName = "" →
      OnPlayerInsert s r = (s, []) ∧ OnPlayerUpdate s o r = (s, [])) := by
  refine ⟨rfl, ?_, ?_⟩
  · intro s ev
    cases ev with
    | init => exact Or.inl (InitializeSubsystem_cache s)
    | deinit => exact Or.inl (DeinitializeSubsystem_cache s)
    | start => exact Or.inl (StartConnection_cache s)
    | disconnect => exact Or.inl (Disconnect_cache s)
    | tick d => exact Or.inl (by rw [show (step s (Ev.tick d)).1 = (Tick s d).1 from rfl, Tick_state])
    | activate => exact Or.inl (sdkActivate_cache s)
    | connected i t => exact Or.inl (HandleConnect_cache s i t)
    | playerInsert r =>
        by_cases hid : r.identity = s.localIdentity
        · by_cases hg : r.displayName ≠ "" ∧ r.displayName ≠ s.localPlayerDisplayName
          · refine Or.inr ?_
            have hstep : ((step s (Ev.playerInsert r)).1).localPlayerDisplayName = r.displayName := by
              simp [step, OnPlayerInsert, hid, hg]
            rw [hstep]
            exact ⟨hg.1, hid, rfl⟩
          · exact Or.inl (by simp [step, OnPlayerInsert, hid, hg])
        · exact Or.inl (by simp [step, OnPlayerInsert, hid])
    | playerUpdate o r =>
        by_cases hid : r.identity = s.localIdentity
        · by_cases hg : r.displayName ≠ "" ∧ r.displayName ≠ s.localPlayerDisplayName
          · refine Or.inr ?_
            have hstep : ((step s (Ev.playerUpdate o r)).1).localPlayerDisplayName = r.displayName := by
              simp [step, OnPlayerUpdate, hid, hg]
            rw [hstep]
            exact ⟨hg.1, hid, rfl⟩
          · exact Or.inl (by simp [step, OnPlayerUpdate, hid, hg])
        · exact Or.inl (by simp [step, OnPlayerUpdate, hid])
    | subApplied db =>
        cases hc : s.conn with
        | none => exact Or.inl (by simp [step, HandleSubscriptionApplied, hc])
        | some c =>
            cases hdb : c.hasDb with
            | false => exact Or.inl (by simp [step, HandleSubscriptionApplied, hc, hdb])
            | true =>
                by_cases hp : (findByIdentity db.players s.localIdentity).playerId = 0
                · exact Or.inl (by simp [step, HandleSubscriptionApplied, hc, hdb, hp])
                · by_cases hg : (findByIdentity db.players s.localIdentity).displayName ≠ "" ∧
                      (findByIdentity db.players s.localIdentity).displayName ≠ s.localPlayerDisplayName
                  · refine Or.inr ?_
                    have hstep : ((step s (Ev.subApplied db)).1).localPlayerDisplayName =
                        (findByIdentity db.players s.localIdentity).displayName := by
                      simp [step, HandleSubscriptionApplied, hc, hdb, hp, hg]
                    rw [hstep]
                    refine ⟨hg.1, ?_⟩
                    rcases findByIdentity_default_or_mem db.players s.localIdentity with hdef | ⟨hm, hi⟩
                    · exact absurd (by rw [hdef]; rfl) hp
                    · exact ⟨findByIdentity db.players s.localIdentity, hm, hi, rfl⟩
                  · exact Or.inl (by simp [step, HandleSubscriptionApplied, hc, hdb, hp, hg])
  · intro s o r hid hempty
    constructor <;> simp [OnPlayerInsert, OnPlayerUpdate, hid, hempty]

/-- Witness for C9: an empty incoming name for the local identity is a
silent no-op in both handlers. -/
theorem C9_witness :
    OnPlayerInsert initState { identity := 0, playerId := 3, displayName := "" } =
      (initState, []) ∧
    OnPlayerUpdate initState defaultPlayer
      { identity := 0, playerId := 3, displayName := "" } = (initState, []) :=
  C9_cache_invariant.2.2 initState defaultPlayer
    { identity := 0, playerId := 3, displayName := "" } rfl rfl

end StDb
